import Mathlib

/-!
Verification of the connection-registry and command-relay core of the
Triky007/websockets repository (public-server/main.py, public-server/auth.py,
public-server/routes/websocket.py, private-agent/agent.py).

The live FastAPI application is built in `public-server/main.py`; it mounts
only `auth.router` (main.py line 58), so the duplex endpoints that actually
serve traffic are `main.py`'s `/ws` (websocket_endpoint, lines 532-582) and
`/ws/agent` (agent_websocket, lines 584-610).  The parallel implementations
in `routes/websocket.py` are never included in the application.  The
definitions below therefore embed `main.py`'s handlers; divergences of the
unmounted router file are noted where relevant.

Messages are Python dicts serialized with `json.dumps`; we embed JSON values
and the CPython `json.dumps` text form (default separators, ensure_ascii)
exactly, because `send_websocket_message` (main.py lines 509-530) decides the
1 MiB size policy on the length of that text.
-/

/-- JSON values as produced/consumed by the Python code.  Objects keep the
insertion order of the Python dict literals; the repository never builds a
dict with a duplicate key.  Numbers in the relay messages are integers. -/
inductive Json where
  | null : Json
  | bool (b : Bool) : Json
  | num (n : Int) : Json
  | str (s : String) : Json
  | arr (xs : List Json) : Json
  | obj (kvs : List (String × Json)) : Json

/-- `d.get(k)` on a Python dict: first binding of the key, `None` when the
key is absent or the value is not a dict. -/
def Json.get : Json → String → Option Json
  | .obj kvs, k => kvs.lookup k
  | _, _ => none

/-- `d.get(k, default)` on a Python dict. -/
def Json.getD (j : Json) (k : String) (d : Json) : Json :=
  (j.get k).getD d

/-- One hexadecimal digit, lowercase, as printed by CPython's json encoder. -/
def hexChar (n : Nat) : Char :=
  if n < 10 then Char.ofNat (48 + n) else Char.ofNat (87 + n)

/-- A `\uXXXX` escape, four lowercase hex digits. -/
def uEscape (n : Nat) : String :=
  "\\u" ++ String.mk [hexChar (n / 4096 % 16), hexChar (n / 256 % 16),
                      hexChar (n / 16 % 16), hexChar (n % 16)]

/-- How CPython's `json.dumps` (default `ensure_ascii=True`) renders one
character inside a string literal. -/
def escapeChar (c : Char) : String :=
  if c = '"' then "\\\""
  else if c = '\\' then "\\\\"
  else if c = '\n' then "\\n"
  else if c = '\t' then "\\t"
  else if c = '\r' then "\\r"
  else if c.toNat = 8 then "\\b"
  else if c.toNat = 12 then "\\f"
  else if c.toNat < 32 then uEscape c.toNat
  else if c.toNat < 127 then String.singleton c
  else if c.toNat < 65536 then uEscape c.toNat
  else
    uEscape (55296 + (c.toNat - 65536) / 1024) ++ uEscape (56320 + (c.toNat - 65536) % 1024)

/-- A JSON string literal as printed by `json.dumps`. -/
def encStr (s : String) : String :=
  "\"" ++ String.join (s.data.map escapeChar) ++ "\""

mutual

/-- `json.dumps(v)` with CPython defaults: separators `", "` and `": "`,
`ensure_ascii=True`. -/
def Json.dumps : Json → String
  | .null => "null"
  | .bool true => "true"
  | .bool false => "false"
  | .num n => toString n
  | .str s => encStr s
  | .arr xs => "[" ++ Json.dumpsArr xs ++ "]"
  | .obj kvs => "\x7b" ++ Json.dumpsObj kvs ++ "\x7d"

/-- Array elements joined by `", "`. -/
def Json.dumpsArr : List Json → String
  | [] => ""
  | [j] => Json.dumps j
  | j :: rest => Json.dumps j ++ ", " ++ Json.dumpsArr rest

/-- Object entries `"key": value` joined by `", "`. -/
def Json.dumpsObj : List (String × Json) → String
  | [] => ""
  | [kv] => encStr kv.1 ++ ": " ++ Json.dumps kv.2
  | kv :: rest => encStr kv.1 ++ ": " ++ Json.dumps kv.2 ++ ", " ++ Json.dumpsObj rest

end

example : (Json.obj [("type", Json.str "agent_status"), ("connected", Json.bool true)]).dumps
    = "\x7b\"type\": \"agent_status\", \"connected\": true\x7d" := by rfl

/-! ## Identity Gate (public-server/auth.py, lines 25-43)

`get_token_from_cookie` reads the `access_token` cookie, splits it on
whitespace (Python `str.split()` with no argument: runs of whitespace,
empty pieces discarded; a count other than exactly two raises `ValueError`,
caught and turned into `None`), and requires the first word to be `bearer`
case-insensitively. -/

/-- Python `str.split()` with no separator: words are maximal runs of
non-whitespace characters; leading, trailing and repeated whitespace
produce no empty pieces.  `acc` accumulates the current word reversed. -/
def pySplitAux : List Char → List Char → List String
  | [], acc => if acc.isEmpty then [] else [String.mk acc.reverse]
  | c :: rest, acc =>
    if c.isWhitespace then
      if acc.isEmpty then pySplitAux rest []
      else String.mk acc.reverse :: pySplitAux rest []
    else pySplitAux rest (c :: acc)

/-- Python `s.split()`. -/
def pySplit (s : String) : List String := pySplitAux s.data []

/-- `auth.get_token_from_cookie`, with the cookie jar abstracted to the
value of the `access_token` cookie (or `none` when the cookie is absent). -/
def get_token_from_cookie (cookie : Option String) : Option String :=
  match cookie with
  | none => none
  | some authorization =>
    match pySplit authorization with
    | [scheme, token] => if scheme.toLower = "bearer" then some token else none
    | _ => none

/-! ## Connection registry and safe send (public-server/main.py)

The registry is the pair of module-level sets `connected_clients`
(main.py line 507) and `connected_agents` (main.py line 613), modelled as
lists of connection identifiers without duplicates (a Python set holds each
websocket object once).  Transport failure of a connection is modelled by
the predicate `fails`: `fails ws = true` means `websocket.send_json` raises
on that connection.  Every delivery that actually happens is recorded as a
`(recipient, payload)` pair. -/

/-- The two registry sets. -/
structure ServerState where
  clients : List Nat
  agents : List Nat

/-- Size ceiling of `send_websocket_message`: 1024 * 1024 bytes
(main.py line 514). -/
def MSG_LIMIT : Nat := 1024 * 1024

/-- The reduced substitute envelope built when a message is oversized
(main.py lines 517-521): `message.get("type", "unknown")`,
`message.get("status", "error")`, and a fixed truncation notice. -/
def message_summary (message : Json) : Json :=
  Json.obj [("type", message.getD "type" (Json.str "unknown")),
            ("status", message.getD "status" (Json.str "error")),
            ("message", Json.str "Message too large to send")]

/-- The payload actually passed to `websocket.send_json` by
`send_websocket_message` (main.py lines 512-524): the full message when
`len(json.dumps(message))` is at most the ceiling, the summary otherwise. -/
def send_payload (message : Json) : Json :=
  if MSG_LIMIT < message.dumps.length then message_summary message else message

/-- Result of one `send_websocket_message` call: the returned boolean, the
`remove_from` set after the call (`none` when no set was passed), and the
deliveries that reached the peer. -/
structure SendResult where
  ok : Bool
  removeFrom : Option (List Nat)
  out : List (Nat × Json)

/-- `main.send_websocket_message` (main.py lines 509-530).  On a send
exception it returns `False` and removes the websocket from `remove_from`
when a set was passed and contains it (`List.erase` is a no-op otherwise,
matching `if remove_from and websocket in remove_from`); on success it
returns `True` having delivered `send_payload message`. -/
def send_websocket_message (fails : Nat → Bool) (ws : Nat) (message : Json)
    (removeFrom : Option (List Nat)) : SendResult :=
  if fails ws then
    ⟨false, removeFrom.map (fun s => s.erase ws), []⟩
  else
    ⟨true, removeFrom, [(ws, send_payload message)]⟩

/-- Result of a fan-out loop: the registry set after the loop and the
deliveries made, in loop order. -/
structure BroadcastResult where
  set : List Nat
  out : List (Nat × Json)

/-- The fan-out pattern of both relay directions in main.py
(`for member in list(target_set): await send_websocket_message(member, data,
target_set)`, lines 562-565 and 598-599): iterate a detached snapshot,
threading the live registry set through each call so a failed member is
removed, and never aborting on failure. -/
def broadcastSafe (fails : Nat → Bool) (message : Json) :
    List Nat → List Nat → BroadcastResult
  | [], live => ⟨live, []⟩
  | ws :: rest, live =>
    let r := send_websocket_message fails ws message (some live)
    let rr := broadcastSafe fails message rest (r.removeFrom.getD live)
    ⟨rr.set, r.out ++ rr.out⟩

/-! ## The duplex handlers of main.py -/

/-- One inbound websocket frame: either JSON-parseable (FastAPI's
`receive_json` yields the parsed value) or malformed (`receive_json` raises
`json.JSONDecodeError`). -/
inductive Frame where
  | malformed : Frame
  | parsed (data : Json) : Frame

/-- Outcome of one handler step: deliveries made, registries afterwards,
and whether the handler's read loop keeps running. -/
structure StepResult where
  sent : List (Nat × Json)
  state : ServerState
  continues : Bool

/-- The initial `agent_status` envelope sent to a fresh client
(main.py lines 541-544), with `connected = len(connected_agents) > 0`. -/
def agent_status_message (connected : Bool) : Json :=
  Json.obj [("type", Json.str "agent_status"), ("connected", Json.bool connected)]

/-- Admission of a client at `/ws` (main.py lines 536-545): accept, add to
`connected_clients`, then send the initial agent-status envelope through
`send_websocket_message` (no `remove_from` set is passed there). -/
def websocket_endpoint_init (fails : Nat → Bool) (st : ServerState) (c : Nat) : StepResult :=
  ⟨(send_websocket_message fails c
      (agent_status_message (decide (st.agents.length > 0))) none).out,
   ⟨st.clients ++ [c], st.agents⟩, true⟩

/-- The error envelope sent to a client when `connected_agents` is empty
(main.py lines 555-558). -/
def no_agents_error : Json :=
  Json.obj [("type", Json.str "error"), ("message", Json.str "No hay agentes conectados")]

/-- The error envelope sent to a client when no agent accepted the command
(main.py lines 569-572). -/
def no_delivery_error : Json :=
  Json.obj [("type", Json.str "error"),
            ("message", Json.str "No se pudo enviar el comando a ningún agente")]

/-- One iteration of the `/ws` client read loop (main.py lines 548-582).
A malformed frame: `receive_json` raises `json.JSONDecodeError`, which no
handler inside the loop catches, so the exception escapes the loop, the
`finally` removes the client from `connected_clients`, and the handler
terminates.  A parsed frame: if `connected_agents` is empty, answer the
sender with `no_agents_error` and continue; otherwise fan the message out
to a snapshot of the agent set, and if no send succeeded answer the sender
with `no_delivery_error`. -/
def websocket_endpoint_step (fails : Nat → Bool) (st : ServerState) (c : Nat)
    (f : Frame) : StepResult :=
  match f with
  | .malformed => ⟨[], ⟨st.clients.erase c, st.agents⟩, false⟩
  | .parsed data =>
    if st.agents.isEmpty then
      ⟨(send_websocket_message fails c no_agents_error none).out, st, true⟩
    else
      let r := broadcastSafe fails data st.agents st.agents
      if r.out.isEmpty then
        ⟨r.out ++ (send_websocket_message fails c no_delivery_error none).out,
         ⟨st.clients, r.set⟩, true⟩
      else
        ⟨r.out, ⟨st.clients, r.set⟩, true⟩

/-- Admission of an agent at `/ws/agent` (main.py lines 584-590): the
handler accepts the upgrade and adds the connection to `connected_agents`
unconditionally.  It never reads the handshake cookies, never calls any
function of `auth`, and never closes the socket: the returned close code is
always `none`. -/
def agent_websocket_connect (st : ServerState) (a : Nat) (_cookie : Option String) :
    ServerState × Option Nat :=
  (⟨st.clients, st.agents ++ [a]⟩, none)

/-- The acknowledgement sent back to the agent after relaying one of its
messages (main.py line 601). -/
def ack_message : Json :=
  Json.obj [("status", Json.str "ok"), ("message", Json.str "Mensaje recibido")]

/-- One iteration of the `/ws/agent` read loop (main.py lines 593-601):
fan the agent's message out to a snapshot of `connected_clients` through
`send_websocket_message`, then send `ack_message` back to the agent (no
`remove_from` set is passed for the ack). -/
def agent_websocket_step (fails : Nat → Bool) (st : ServerState) (a : Nat)
    (data : Json) : StepResult :=
  let r := broadcastSafe fails data st.clients st.clients
  ⟨r.out ++ (send_websocket_message fails a ack_message none).out,
   ⟨r.set, st.agents⟩, true⟩

/-- Teardown of the `/ws/agent` handler on `WebSocketDisconnect`
(main.py lines 602-606): the `finally` removes the agent from
`connected_agents` and the handler ends.  No message of any kind is sent:
there is no broadcast to the clients. -/
def agent_websocket_disconnect (st : ServerState) (a : Nat) : StepResult :=
  ⟨[], ⟨st.clients, st.agents.erase a⟩, false⟩

/-! ## Base64 and the download command (main.py lines 402-419, agent.py) -/

/-- The standard base64 alphabet used by `base64.b64encode` /
`base64.b64decode`. -/
def b64alphabet : List Char :=
  "ABCDEFGHIJKLMNOPQRSTUVWXYZabcdefghijklmnopqrstuvwxyz0123456789+/".data

/-- Digit value to alphabet character. -/
def alphaChar (i : Nat) : Char := b64alphabet.getD i 'A'

/-- Alphabet character back to digit value. -/
def b64idx (c : Char) : Option Nat := b64alphabet.findIdx? (fun x => x == c)

/-- `base64.b64encode` on a byte string, three bytes to four characters,
with `=` padding. -/
def b64encodeList : List Nat → List Char
  | a :: b :: c :: rest =>
    alphaChar (a / 4) :: alphaChar (a % 4 * 16 + b / 16) ::
    alphaChar (b % 16 * 4 + c / 64) :: alphaChar (c % 64) :: b64encodeList rest
  | [a, b] => [alphaChar (a / 4), alphaChar (a % 4 * 16 + b / 16), alphaChar (b % 16 * 4), '=']
  | [a] => [alphaChar (a / 4), alphaChar (a % 4 * 16), '=', '=']
  | [] => []

/-- `base64.b64decode` on a well-formed base64 text: four characters to
three bytes, with the two padded final-group forms.  Inputs that are not
well-formed base64 raise `binascii.Error` in Python; the exact exception
text is opaque and modelled by a fixed error string. -/
def b64decodeList : List Char → Except String (List Nat)
  | [] => .ok []
  | c1 :: c2 :: c3 :: c4 :: rest =>
    match b64idx c1, b64idx c2 with
    | some i1, some i2 =>
      if c3 = '=' ∧ c4 = '=' ∧ rest = [] then
        .ok [i1 * 4 + i2 / 16]
      else if c4 = '=' ∧ rest = [] then
        match b64idx c3 with
        | some i3 => .ok [i1 * 4 + i2 / 16, i2 % 16 * 16 + i3 / 4]
        | none => .error "Invalid base64-encoded string"
      else
        match b64idx c3, b64idx c4, b64decodeList rest with
        | some i3, some i4, .ok tail =>
          .ok ((i1 * 4 + i2 / 16) :: (i2 % 16 * 16 + i3 / 4) :: (i3 % 4 * 64 + i4) :: tail)
        | _, _, _ => .error "Invalid base64-encoded string"
    | _, _ => .error "Invalid base64-encoded string"
  | _ => .error "Invalid base64-encoded string"

/-- `base64.b64encode(file_content).decode("utf-8")` (main.py line 405). -/
def b64encode (bytes : List Nat) : String := String.mk (b64encodeList bytes)

/-- `base64.b64decode(content_b64)` (agent.py line 109). -/
def b64decode (s : String) : Except String (List Nat) := b64decodeList s.data

/-- The download command envelope built by `download_file`
(main.py lines 414-419) from a filename and the base64 text of the file
bytes. -/
def download_file_command (filename : String) (file_content_b64 : String) : Json :=
  Json.obj [("type", Json.str "command"), ("command", Json.str "download"),
            ("filename", Json.str filename), ("content", Json.str file_content_b64)]


/-! ## The agent command handler (private-agent/agent.py, lines 89-215)

`AgentWebSocket.handle_command` dispatches on `data.get("command")` with a
chain of `==` comparisons against string literals, so a missing command
field or a non-string value falls through every branch to the final `else`.
File-system effects run against the agent's flat `files/` directory,
modelled as an association list from filename to byte content; the XMF HTTP
call of the `get_know_devices` branch is an external collaborator, modelled
by an oracle carried in the environment.  Exception texts interpolated from
Python exception objects are opaque and modelled by fixed strings. -/

/-- Python truthiness of `data.get(k)` results (`not x`). -/
def pyTruthy : Option Json → Bool
  | none => false
  | some .null => false
  | some (.bool b) => b
  | some (.num n) => n != 0
  | some (.str s) => s != ""
  | some (.arr xs) => !xs.isEmpty
  | some (.obj kvs) => !kvs.isEmpty

/-- Python `x == "lit"` for a fetched value: true exactly when the value is
that string (comparison of a non-string against a string is `False`). -/
def pyEqStr (v : Option Json) (s : String) : Bool :=
  match v with
  | some (.str t) => t == s
  | _ => false

/-- Writing a file under the agent's `files/` directory
(`open(file_path, "wb")` overwrites an existing file of the same name). -/
def fsWrite (fs : List (String × List Nat)) (name : String) (content : List Nat) :
    List (String × List Nat) :=
  (name, content) :: fs.filter (fun kv => kv.1 != name)

/-- The agent's environment: its local file store and the outcome the XMF
HTTP collaborator would produce (`.ok (status_code, text)` for a response,
`.error e` for a raised connection error). -/
structure AgentEnv where
  fs : List (String × List Nat)
  xmf : Except String (Nat × String)

/-- The command literals `handle_command` dispatches on. -/
def handledCommands : List String :=
  ["ping", "download", "list_files", "delete_file", "get_know_devices"]

/-- The envelope returned by `handle_command`'s final `else` branch
(agent.py line 215). -/
def unknown_command_response : Json :=
  Json.obj [("type", Json.str "response"), ("status", Json.str "error"),
            ("message", Json.str "Comando desconocido")]

/-- `AgentWebSocket.handle_command` (agent.py lines 89-215): returns the
response envelope and the file store afterwards. -/
def handle_command (env : AgentEnv) (data : Json) : Json × List (String × List Nat) :=
  let command := data.get "command"
  if pyEqStr command "ping" then
    (Json.obj [("type", Json.str "response"), ("status", Json.str "ok"),
               ("message", Json.str "pong")], env.fs)
  else if pyEqStr command "download" then
    if !pyTruthy (data.get "filename") || !pyTruthy (data.get "content") then
      (Json.obj [("type", Json.str "response"), ("status", Json.str "error"),
                 ("message", Json.str "Missing filename or content")], env.fs)
    else
      match data.get "filename", data.get "content" with
      | some (.str filename), some (.str content_b64) =>
        match b64decode content_b64 with
        | .ok content =>
          (Json.obj [("type", Json.str "response"), ("status", Json.str "success"),
                     ("message", Json.str ("File " ++ filename ++ " downloaded successfully"))],
           fsWrite env.fs filename content)
        | .error e =>
          (Json.obj [("type", Json.str "response"), ("status", Json.str "error"),
                     ("message", Json.str ("Error downloading file: " ++ e))], env.fs)
      | _, _ =>
        (Json.obj [("type", Json.str "response"), ("status", Json.str "error"),
                   ("message", Json.str "Error downloading file: unmodelled exception text")],
         env.fs)
  else if pyEqStr command "list_files" then
    (Json.obj [("type", Json.str "agent_files"),
               ("files", Json.arr (env.fs.map (fun kv => Json.str kv.1)))], env.fs)
  else if pyEqStr command "delete_file" then
    if !pyTruthy (data.get "filename") then
      (Json.obj [("type", Json.str "response"), ("status", Json.str "error"),
                 ("message", Json.str "Missing filename")], env.fs)
    else
      match data.get "filename" with
      | some (.str filename) =>
        if (env.fs.lookup filename).isNone then
          (Json.obj [("type", Json.str "response"), ("status", Json.str "error"),
                     ("message", Json.str "File not found")], env.fs)
        else
          (Json.obj [("type", Json.str "response"), ("status", Json.str "success"),
                     ("message", Json.str ("File " ++ filename ++ " deleted successfully"))],
           env.fs.filter (fun kv => kv.1 != filename))
      | _ =>
        (Json.obj [("type", Json.str "response"), ("status", Json.str "error"),
                   ("message", Json.str "Error deleting file: unmodelled exception text")],
         env.fs)
  else if pyEqStr command "get_know_devices" then
    match env.xmf with
    | .ok (code, text) =>
      if code = 200 then
        (Json.obj [("type", Json.str "response"), ("status", Json.str "ok"),
                   ("command", Json.str "get_know_devices"), ("data", Json.str text)], env.fs)
      else
        (Json.obj [("type", Json.str "response"), ("status", Json.str "error"),
                   ("command", Json.str "get_know_devices"),
                   ("message", Json.str ("Error del servidor XMF: " ++ toString code ++ " - " ++ text))],
         env.fs)
    | .error e =>
      (Json.obj [("type", Json.str "response"), ("status", Json.str "error"),
                 ("command", Json.str "get_know_devices"),
                 ("message", Json.str ("Error al conectar con el servidor XMF: " ++ e))], env.fs)
  else
    (unknown_command_response, env.fs)

/-! ## Helper lemmas -/

/-- A message whose serialization is within the ceiling is passed on
unmodified by `send_websocket_message`. -/
theorem send_payload_small (msg : Json) (h : msg.dumps.length ≤ MSG_LIMIT) :
    send_payload msg = msg := by
  unfold send_payload
  rw [if_neg (by omega)]

/-- The initial agent-status envelope is far below the size ceiling. -/
theorem agent_status_small (b : Bool) :
    (agent_status_message b).dumps.length ≤ MSG_LIMIT := by
  cases b <;> decide

/-- Python `==` against a string literal is false when the fetched value is
not that string. -/
theorem pyEqStr_eq_false (v : Option Json) (s : String) (h : v ≠ some (Json.str s)) :
    pyEqStr v s = false := by
  cases v with
  | none => rfl
  | some j =>
    cases j with
    | null => rfl
    | bool b => rfl
    | num n => rfl
    | arr xs => rfl
    | obj kvs => rfl
    | str t =>
      show (t == s) = false
      exact beq_eq_false_iff_ne.mpr (by rintro rfl; exact h rfl)

/-- A fan-out over a snapshot in which no member's transport fails delivers
the payload to every member in order and leaves the live set untouched. -/
theorem broadcastSafe_all_ok (fails : Nat → Bool) (msg : Json) (s : List Nat)
    (h : ∀ x ∈ s, fails x = false) :
    ∀ live, broadcastSafe fails msg s live
      = ⟨live, s.map (fun x => (x, send_payload msg))⟩ := by
  induction s with
  | nil => intro live; rfl
  | cons ws rest ih =>
    intro live
    have hw : fails ws = false := h ws (by simp)
    simp [broadcastSafe, send_websocket_message, hw,
          ih (fun x hx => h x (by simp [hx])) live]

/-- A fan-out over a duplicate-free snapshot in which exactly the member `k`
fails delivers the payload to every other member in order, skips `k`, and
erases `k` from the live set exactly when `k` is in the snapshot. -/
theorem broadcastSafe_one_fail (fails : Nat → Bool) (msg : Json) (k : Nat)
    (s : List Nat) (hnd : s.Nodup) (hk : fails k = true)
    (hok : ∀ x ∈ s, x ≠ k → fails x = false) :
    ∀ live, broadcastSafe fails msg s live
      = ⟨if k ∈ s then live.erase k else live,
         (s.filter (fun x => x != k)).map (fun x => (x, send_payload msg))⟩ := by
  induction s with
  | nil => intro live; simp [broadcastSafe]
  | cons ws rest ih =>
    intro live
    have hnin : ws ∉ rest := (List.nodup_cons.mp hnd).1
    have hnd' : rest.Nodup := (List.nodup_cons.mp hnd).2
    have ih' := ih hnd' (fun x hx hne => hok x (by simp [hx]) hne)
    by_cases hws : ws = k
    · subst hws
      have hkr : ws ∉ rest := hnin
      simp [broadcastSafe, send_websocket_message, hk, ih', hkr]
    · have hf : fails ws = false := hok ws (by simp) hws
      have hkw : ¬k = ws := fun h => hws h.symm
      simp [broadcastSafe, send_websocket_message, hf, ih', hws,
            List.mem_cons, hkw]

/-! ## Claim theorems -/

/-- C1 (code bug witness): the `/ws/agent` handler of the mounted
application admits every incoming connection into the agent registry set
without consulting the Identity Gate and without ever closing the socket.
With no `access_token` cookie (and equally with a malformed one) the gate
yields no token, yet `agent_websocket_connect` adds the connection to
`connected_agents` and returns no close code — contradicting the claim that
admission happens only after a validated bearer token and that a missing or
invalid token leads to a policy-violation close. -/
theorem c1_agent_admitted_without_auth :
    get_token_from_cookie none = none ∧
    get_token_from_cookie (some "garbage") = none ∧
    agent_websocket_connect ⟨[], []⟩ 0 none = (⟨[], [0]⟩, none) ∧
    agent_websocket_connect ⟨[], []⟩ 0 (some "garbage") = (⟨[], [0]⟩, none) ∧
    (∀ cookie : Option String,
      agent_websocket_connect ⟨[], []⟩ 0 cookie = (⟨[], [0]⟩, none)) := by
  exact ⟨rfl, by rfl, rfl, rfl, fun _ => rfl⟩

/-- C3 counterexample: with no agent connected, the mounted `/ws` handler
answers a client ping command with exactly one error envelope — but its
message is the Spanish `"No hay agentes conectados"`, not the
`"No agent connected"` stated by the claim. -/
theorem c3_message_counterexample :
    (websocket_endpoint_step (fun _ => false) ⟨[0], []⟩ 0
        (Frame.parsed (Json.obj [("type", Json.str "command"),
                                 ("command", Json.str "ping")]))).sent
      = [(0, no_agents_error)] ∧
    no_agents_error ≠ Json.obj [("type", Json.str "error"),
                                ("message", Json.str "No agent connected")] := by
  refine ⟨by rfl, ?_⟩
  simp [no_agents_error]

/-- C3 (amended): with an empty agent set, a client-originated envelope is
answered with exactly one error envelope of type `error` and message
`"No hay agentes conectados"` back to the sender only; nothing is forwarded,
nothing is queued (the step's only outputs are the listed deliveries), both
registry sets are unchanged, and the read loop continues. -/
theorem c3_no_agent_error_amended (fails : Nat → Bool) (st : ServerState)
    (c : Nat) (data : Json) (hempty : st.agents = []) (hc : fails c = false) :
    websocket_endpoint_step fails st c (Frame.parsed data)
      = ⟨[(c, no_agents_error)], st, true⟩ ∧
    no_agents_error.get "type" = some (Json.str "error") ∧
    no_agents_error.get "message" = some (Json.str "No hay agentes conectados") := by
  refine ⟨?_, rfl, rfl⟩
  simp [websocket_endpoint_step, hempty, send_websocket_message, hc,
        send_payload_small no_agents_error (by decide)]

/-- C3 witness: the amended theorem applied to one client, no agents, and a
ping command. -/
theorem c3_no_agent_error_amended_witness :
    websocket_endpoint_step (fun _ => false) ⟨[7], []⟩ 7
        (Frame.parsed (Json.obj [("type", Json.str "command"),
                                 ("command", Json.str "ping")]))
      = ⟨[(7, no_agents_error)], ⟨[7], []⟩, true⟩ ∧
    no_agents_error.get "type" = some (Json.str "error") ∧
    no_agents_error.get "message" = some (Json.str "No hay agentes conectados") :=
  c3_no_agent_error_amended (fun _ => false) ⟨[7], []⟩ 7 _ rfl rfl

/-- C4: for an envelope carrying a `type` and a `status`, the safe send
transmits, to a healthy peer, the reduced substitute (the original type, the
original status, and the truncation notice) exactly when the `json.dumps`
serialization exceeds the 1 MiB ceiling, and the unmodified envelope exactly
when it is at or under the ceiling. -/
theorem c4_size_policy (fails : Nat → Bool) (ws : Nat) (msg : Json)
    (t s : Json) (removeFrom : Option (List Nat))
    (ht : msg.get "type" = some t) (hs : msg.get "status" = some s)
    (hw : fails ws = false) :
    (MSG_LIMIT < msg.dumps.length →
      send_websocket_message fails ws msg removeFrom
        = ⟨true, removeFrom,
           [(ws, Json.obj [("type", t), ("status", s),
                           ("message", Json.str "Message too large to send")])]⟩) ∧
    (msg.dumps.length ≤ MSG_LIMIT →
      send_websocket_message fails ws msg removeFrom
        = ⟨true, removeFrom, [(ws, msg)]⟩) := by
  constructor
  · intro hbig
    simp [send_websocket_message, hw, send_payload, hbig,
          message_summary, Json.getD, ht, hs]
  · intro hsmall
    simp [send_websocket_message, hw, send_payload_small msg hsmall]

/-- C4 witness: the size policy applied to a small concrete envelope sent to
a healthy peer. -/
theorem c4_size_policy_witness :
    (MSG_LIMIT < (Json.obj [("type", Json.str "response"),
                            ("status", Json.str "ok")]).dumps.length →
      send_websocket_message (fun _ => false) 0
          (Json.obj [("type", Json.str "response"), ("status", Json.str "ok")]) none
        = ⟨true, none,
           [(0, Json.obj [("type", Json.str "response"), ("status", Json.str "ok"),
                          ("message", Json.str "Message too large to send")])]⟩) ∧
    ((Json.obj [("type", Json.str "response"),
                ("status", Json.str "ok")]).dumps.length ≤ MSG_LIMIT →
      send_websocket_message (fun _ => false) 0
          (Json.obj [("type", Json.str "response"), ("status", Json.str "ok")]) none
        = ⟨true, none,
           [(0, Json.obj [("type", Json.str "response"), ("status", Json.str "ok")])]⟩) :=
  c4_size_policy (fun _ => false) 0 _ _ _ none rfl rfl rfl

/-- C5 (code bug witness): tearing down the sole connected agent in the
mounted `/ws/agent` handler removes it from the agent set but sends no
message at all — the connected clients receive zero
`agent_status: false` broadcasts, not exactly one each as the claim
states. -/
theorem c5_no_disconnect_broadcast :
    (agent_websocket_disconnect ⟨[3, 4], [7]⟩ 7).sent = [] ∧
    (agent_websocket_disconnect ⟨[3, 4], [7]⟩ 7).state.agents = [] ∧
    (agent_websocket_disconnect ⟨[3, 4], [7]⟩ 7).state.clients = [3, 4] ∧
    (∀ st : ServerState, ∀ a : Nat, (agent_websocket_disconnect st a).sent = []) :=
  ⟨rfl, rfl, rfl, fun _ _ => rfl⟩

/-- C6 counterexample: relaying an agent message with no clients connected,
the mounted handler sends the agent exactly one acknowledgement — but that
acknowledgement is `{"status": "ok", "message": "Mensaje recibido"}`, not
the bare `{"status": "ok"}` envelope stated by the claim. -/
theorem c6_ack_counterexample :
    (agent_websocket_step (fun _ => false) ⟨[], [0]⟩ 0
        (Json.obj [("type", Json.str "status_update")])).sent
      = [(0, ack_message)] ∧
    ack_message ≠ Json.obj [("status", Json.str "ok")] := by
  refine ⟨by rfl, ?_⟩
  simp [ack_message]

/-- C6 (amended): for every envelope within the size ceiling received from
an agent over healthy transports, the mounted handler forwards the envelope
verbatim to every member of the client set exactly once, and sends exactly
one acknowledgement — `{"status": "ok", "message": "Mensaje recibido"}` — to
the originating agent only; the registries are unchanged. -/
theorem c6_agent_relay_amended (fails : Nat → Bool) (st : ServerState)
    (a : Nat) (data : Json) (hc : ∀ c ∈ st.clients, fails c = false)
    (ha : fails a = false) (hsize : data.dumps.length ≤ MSG_LIMIT) :
    (agent_websocket_step fails st a data).sent
      = st.clients.map (fun c => (c, data)) ++ [(a, ack_message)] ∧
    (agent_websocket_step fails st a data).state.clients = st.clients ∧
    (agent_websocket_step fails st a data).state.agents = st.agents := by
  refine ⟨?_, ?_, rfl⟩
  · simp [agent_websocket_step, broadcastSafe_all_ok fails data st.clients hc,
          send_websocket_message, ha, send_payload_small data hsize,
          send_payload_small ack_message (by decide)]
  · simp [agent_websocket_step, broadcastSafe_all_ok fails data st.clients hc]

/-- C6 witness: the amended theorem applied to two clients and one agent
with healthy transports and a small envelope. -/
theorem c6_agent_relay_amended_witness :
    (agent_websocket_step (fun _ => false) ⟨[1, 2], [9]⟩ 9
        (Json.obj [("type", Json.str "status_update")])).sent
      = [1, 2].map (fun c => (c, Json.obj [("type", Json.str "status_update")]))
        ++ [(9, ack_message)] ∧
    (agent_websocket_step (fun _ => false) ⟨[1, 2], [9]⟩ 9
        (Json.obj [("type", Json.str "status_update")])).state.clients = [1, 2] ∧
    (agent_websocket_step (fun _ => false) ⟨[1, 2], [9]⟩ 9
        (Json.obj [("type", Json.str "status_update")])).state.agents = [9] :=
  c6_agent_relay_amended (fun _ => false) ⟨[1, 2], [9]⟩ 9 _
    (by intro c hc; rfl) rfl (by decide)

/-- C7 (code bug witness): in the mounted `/ws` handler a non-JSON frame
makes `receive_json` raise `json.JSONDecodeError`, which nothing inside the
read loop catches: no error envelope is sent, the client is removed from the
registry, and the handler terminates — so the next frame from that
connection is never processed, contradicting the claimed isolation. -/
theorem c7_malformed_terminates_handler :
    websocket_endpoint_step (fun _ => false) ⟨[0], []⟩ 0 Frame.malformed
      = ⟨[], ⟨[], []⟩, false⟩ ∧
    (∀ fails : Nat → Bool, ∀ st : ServerState, ∀ c : Nat,
      (websocket_endpoint_step fails st c Frame.malformed).sent = [] ∧
      (websocket_endpoint_step fails st c Frame.malformed).continues = false) :=
  ⟨rfl, fun _ _ _ => ⟨rfl, rfl⟩⟩

/-- C8 counterexample: the agent's command handler maps the out-of-vocabulary
command `"frobnicate"` to exactly one response envelope — but its message is
the Spanish `"Comando desconocido"`, not the `"Unknown command"` stated by
the claim. -/
theorem c8_unknown_counterexample :
    (handle_command ⟨[], Except.error "down"⟩
        (Json.obj [("type", Json.str "command"),
                   ("command", Json.str "frobnicate")])).1
      = unknown_command_response ∧
    unknown_command_response ≠ Json.obj [("type", Json.str "response"),
        ("status", Json.str "error"), ("message", Json.str "Unknown command")] := by
  refine ⟨by rfl, ?_⟩
  simp [unknown_command_response]

/-- C8 (amended): for every envelope whose `command` value matches none of
the handled literals (`ping`, `download`, `list_files`, `delete_file`,
`get_know_devices`), `handle_command` returns the envelope
`{"type": "response", "status": "error", "message": "Comando desconocido"}`
and leaves the file store unchanged — it is a total function: it never
raises and never drops the message. -/
theorem c8_unknown_command_amended (env : AgentEnv) (data : Json)
    (h : ∀ s ∈ handledCommands, data.get "command" ≠ some (Json.str s)) :
    handle_command env data = (unknown_command_response, env.fs) ∧
    unknown_command_response.get "type" = some (Json.str "response") ∧
    unknown_command_response.get "status" = some (Json.str "error") ∧
    unknown_command_response.get "message" = some (Json.str "Comando desconocido") := by
  refine ⟨?_, rfl, rfl, rfl⟩
  have h1 := pyEqStr_eq_false _ _ (h "ping" (by simp [handledCommands]))
  have h2 := pyEqStr_eq_false _ _ (h "download" (by simp [handledCommands]))
  have h3 := pyEqStr_eq_false _ _ (h "list_files" (by simp [handledCommands]))
  have h4 := pyEqStr_eq_false _ _ (h "delete_file" (by simp [handledCommands]))
  have h5 := pyEqStr_eq_false _ _ (h "get_know_devices" (by simp [handledCommands]))
  simp [handle_command, h1, h2, h3, h4, h5]

/-- C8 witness: the amended theorem applied to the concrete unknown command
`"frobnicate"`. -/
theorem c8_unknown_command_amended_witness :
    handle_command ⟨[("a.txt", [1])], Except.error "down"⟩
        (Json.obj [("type", Json.str "command"),
                   ("command", Json.str "frobnicate")])
      = (unknown_command_response, [("a.txt", [1])]) ∧
    unknown_command_response.get "type" = some (Json.str "response") ∧
    unknown_command_response.get "status" = some (Json.str "error") ∧
    unknown_command_response.get "message" = some (Json.str "Comando desconocido") :=
  c8_unknown_command_amended ⟨[("a.txt", [1])], Except.error "down"⟩ _
    (by
      intro s hs
      simp [handledCommands] at hs
      rcases hs with rfl | rfl | rfl | rfl | rfl <;> simp [Json.get, List.lookup])

/-- C10: on admission at `/ws` over a healthy transport, the handler sends
the fresh client exactly one initial envelope
`{"type": "agent_status", "connected": b}` before its read loop starts,
where `b` is true exactly when the agent set is non-empty at that moment,
and adds the client to the client set. -/
theorem c10_initial_agent_status (fails : Nat → Bool) (st : ServerState)
    (c : Nat) (hc : fails c = false) :
    ∃ b : Bool,
      (websocket_endpoint_init fails st c).sent
        = [(c, Json.obj [("type", Json.str "agent_status"),
                         ("connected", Json.bool b)])] ∧
      (b = true ↔ st.agents ≠ []) ∧
      (websocket_endpoint_init fails st c).state.clients = st.clients ++ [c] ∧
      (websocket_endpoint_init fails st c).state.agents = st.agents := by
  refine ⟨decide (st.agents.length > 0), ?_, ?_, rfl, rfl⟩
  · have hsp : send_payload (Json.obj [("type", Json.str "agent_status"),
        ("connected", Json.bool (decide (st.agents.length > 0)))])
        = Json.obj [("type", Json.str "agent_status"),
                    ("connected", Json.bool (decide (st.agents.length > 0)))] :=
      send_payload_small _ (agent_status_small _)
    simp [websocket_endpoint_init, send_websocket_message, hc,
          agent_status_message, hsp]
  · simp [List.length_pos_iff_ne_nil]

/-- C10 witness: admission of a fresh client while one agent is connected. -/
theorem c10_initial_agent_status_witness :
    ∃ b : Bool,
      (websocket_endpoint_init (fun _ => false) ⟨[], [3]⟩ 5).sent
        = [(5, Json.obj [("type", Json.str "agent_status"),
                         ("connected", Json.bool b)])] ∧
      (b = true ↔ ([3] : List Nat) ≠ []) ∧
      (websocket_endpoint_init (fun _ => false) ⟨[], [3]⟩ 5).state.clients
        = [] ++ [5] ∧
      (websocket_endpoint_init (fun _ => false) ⟨[], [3]⟩ 5).state.agents = [3] :=
  c10_initial_agent_status (fun _ => false) ⟨[], [3]⟩ 5 rfl

/-- C2: a fan-out of an envelope within the size ceiling over a
duplicate-free registry snapshot of N members in which delivery to exactly
one member `k` fails delivers the message exactly once to each of the other
members in order (the failure aborts nothing), yields a delivery count of
N - 1, and removes `k` — and only `k` — from the registry set. -/
theorem c2_broadcast_single_failure (fails : Nat → Bool) (msg : Json) (k : Nat)
    (l : List Nat) (hnd : l.Nodup) (hmem : k ∈ l) (hk : fails k = true)
    (hok : ∀ x ∈ l, x ≠ k → fails x = false)
    (hsize : msg.dumps.length ≤ MSG_LIMIT) :
    (broadcastSafe fails msg l l).out
      = (l.filter (fun x => x != k)).map (fun x => (x, msg)) ∧
    (broadcastSafe fails msg l l).out.length = l.length - 1 ∧
    (broadcastSafe fails msg l l).set = l.erase k := by
  have hb := broadcastSafe_one_fail fails msg k l hnd hk hok l
  have hfe : l.filter (fun x => x != k) = l.erase k :=
    (List.Nodup.erase_eq_filter hnd k).symm
  rw [hb, if_pos hmem, send_payload_small msg hsize]
  refine ⟨rfl, ?_, rfl⟩
  rw [List.length_map, hfe, List.length_erase_of_mem hmem]

/-- C2 witness: the broadcast theorem applied to the snapshot `[1, 2, 3]`
where only member 2 fails. -/
theorem c2_broadcast_single_failure_witness :
    (broadcastSafe (fun x => x == 2) (Json.obj [("type", Json.str "status_update")])
        [1, 2, 3] [1, 2, 3]).out
      = ([1, 2, 3].filter (fun x => x != 2)).map
          (fun x => (x, Json.obj [("type", Json.str "status_update")])) ∧
    (broadcastSafe (fun x => x == 2) (Json.obj [("type", Json.str "status_update")])
        [1, 2, 3] [1, 2, 3]).out.length = [1, 2, 3].length - 1 ∧
    (broadcastSafe (fun x => x == 2) (Json.obj [("type", Json.str "status_update")])
        [1, 2, 3] [1, 2, 3]).set = [1, 2, 3].erase 2 :=
  c2_broadcast_single_failure (fun x => x == 2) _ 2 [1, 2, 3]
    (by decide) (by decide) (by decide)
    (by intro x hx hne; fin_cases hx <;> simp_all) (by decide)

/-- The alphabet lookup inverts the alphabet character table on the digit
range. -/
theorem b64idx_alphaChar : ∀ i, i < 64 → b64idx (alphaChar i) = some i := by decide

/-- No alphabet character is the padding character. -/
theorem alphaChar_ne_pad : ∀ i, i < 64 → alphaChar i ≠ '=' := by decide

/-- Decoding inverts encoding chunk by chunk on byte values. -/
theorem b64_roundtrip_list : ∀ l : List Nat, (∀ x ∈ l, x < 256) →
    b64decodeList (b64encodeList l) = Except.ok l
  | [], _ => rfl
  | [a], h => by
    have ha : a < 256 := h a (by simp)
    have h1 := b64idx_alphaChar (a / 4) (by omega)
    have h2 := b64idx_alphaChar (a % 4 * 16) (by omega)
    simp [b64encodeList, b64decodeList, h1, h2]
    omega
  | [a, b], h => by
    have ha : a < 256 := h a (by simp)
    have hb : b < 256 := h b (by simp)
    have h1 := b64idx_alphaChar (a / 4) (by omega)
    have h2 := b64idx_alphaChar (a % 4 * 16 + b / 16) (by omega)
    have h3 := b64idx_alphaChar (b % 16 * 4) (by omega)
    have hne3 := alphaChar_ne_pad (b % 16 * 4) (by omega)
    simp [b64encodeList, b64decodeList, h1, h2, h3, hne3]
    omega
  | a :: b :: c :: rest, h => by
    have ha : a < 256 := h a (by simp)
    have hb : b < 256 := h b (by simp)
    have hc : c < 256 := h c (by simp)
    have ih := b64_roundtrip_list rest (fun x hx => h x (by simp [hx]))
    have h1 := b64idx_alphaChar (a / 4) (by omega)
    have h2 := b64idx_alphaChar (a % 4 * 16 + b / 16) (by omega)
    have h3 := b64idx_alphaChar (b % 16 * 4 + c / 64) (by omega)
    have h4 := b64idx_alphaChar (c % 64) (by omega)
    have hne3 := alphaChar_ne_pad (b % 16 * 4 + c / 64) (by omega)
    have hne4 := alphaChar_ne_pad (c % 64) (by omega)
    simp [b64encodeList, b64decodeList, h1, h2, h3, h4, hne3, hne4, ih]
    omega

/-- C9: the download pipeline's base64 round-trip is the identity on the
file bytes: the server's `download_file` places `b64encode bytes` in the
`content` field of the command envelope, and the agent's decode of that
field reproduces exactly the original bytes. -/
theorem c9_base64_roundtrip (f : String) (bytes : List Nat)
    (h : ∀ x ∈ bytes, x < 256) :
    (download_file_command f (b64encode bytes)).get "content"
      = some (Json.str (b64encode bytes)) ∧
    b64decode (b64encode bytes) = Except.ok bytes :=
  ⟨rfl, b64_roundtrip_list bytes h⟩

/-- C9 witness: the round-trip applied to the concrete bytes
`[77, 97, 110, 255]` of the file `doc.pdf`. -/
theorem c9_base64_roundtrip_witness :
    (download_file_command "doc.pdf" (b64encode [77, 97, 110, 255])).get "content"
      = some (Json.str (b64encode [77, 97, 110, 255])) ∧
    b64decode (b64encode [77, 97, 110, 255]) = Except.ok [77, 97, 110, 255] :=
  c9_base64_roundtrip "doc.pdf" [77, 97, 110, 255] (by decide)
